import Mathlib

/-!
# Verification of the `recomp` X11 compositor

A shallow embedding of the compositor in `src/compositor.rs` (the strict
revision), `src/main.rs` (the loose revision) and `src/connection.rs`.

The program is effectful: it exchanges requests and replies with an X11
display server and a GPU device.  We embed it as a trace semantics: an
environment record (`NewEnv`, `RenderEnv`, `IterEnv`, `DropEnv`) supplies
the outcome the outside world gives to each request, and every operation is
a function that, given the environment, appends the requests it issues (and
the log records it writes) to an action trace and returns either a value or
the first error, mirroring Rust's `?` operator.  Each field of an
environment corresponds to exactly one fallible await in the source; a
`none` error field means that await succeeded with the value also recorded
in the environment.
-/

namespace Recomp

/-- Errors produced by the embedded program.  `protocol n` stands for an
arbitrary X11 / wgpu error supplied by the environment; the remaining
constructors are the errors the source constructs itself:
`intConversion` for a failed `try_into()`, `noAdapter` for
"No adapter found", `noFormat` for "No sRGB surface format found" and
`noAlphaMode` for "No supported usage found". -/
inductive XError where
  | protocol (code : Nat)
  | intConversion
  | noAdapter
  | noFormat
  | noAlphaMode
  deriving DecidableEq, Repr

/-- The three X11 extensions negotiated by `Compositor::new`:
composite (redirection), xfixes (overlay shaping), damage (damage
tracking). -/
inductive Ext where
  | composite
  | xfixes
  | damage
  deriving DecidableEq, Repr

/-- A clear color; the source uses `f64` components, which we scale by 100
to stay in `Nat` (0.1 becomes 10, 1.0 becomes 100).  No claim depends on
the numeric value, only on which constant is passed. -/
structure Color where
  r : Nat
  g : Nat
  b : Nat
  a : Nat
  deriving DecidableEq, Repr

/-- Clear color of the strict revision (`compositor.rs`): (0.1, 0.2, 0.5, 1.0). -/
def strictClearColor : Color := ⟨10, 20, 50, 100⟩

/-- Clear color of the loose revision (`main.rs`): (0.1, 0.2, 0.3, 1.0). -/
def looseClearColor : Color := ⟨10, 20, 30, 100⟩

/-- A wgpu texture format, abstracted to an identifier plus its
`is_srgb()` flag, which is all the source consults. -/
structure TextureFormat where
  id : Nat
  isSrgb : Bool
  deriving DecidableEq, Repr

instance : Inhabited TextureFormat := ⟨⟨0, false⟩⟩

/-- wgpu present modes; the source only ever uses `Fifo`. -/
inductive PresentMode where
  | fifo
  | immediate
  | mailbox
  deriving DecidableEq, Repr

/-- The `TextureUsages::RENDER_ATTACHMENT` bit flag (1 << 4 in wgpu). -/
def RENDER_ATTACHMENT : Nat := 16

/-- Shallow embedding of `wgpu::SurfaceConfiguration`; alpha modes are
abstracted to identifiers since the source only copies the first reported
one. -/
structure SurfaceConfiguration where
  usage : Nat
  format : TextureFormat
  width : Nat
  height : Nat
  presentMode : PresentMode
  alphaMode : Nat
  viewFormats : List TextureFormat
  desiredMaximumFrameLatency : Nat
  deriving DecidableEq, Repr

instance : Inhabited SurfaceConfiguration :=
  ⟨⟨0, default, 0, 0, PresentMode.fifo, 0, [], 0⟩⟩

/-- Capabilities reported by `surface.get_capabilities(&adapter)`. -/
structure SurfaceCapabilities where
  formats : List TextureFormat
  alphaModes : List Nat
  deriving DecidableEq, Repr

/-- A screen from the connection setup reply: root window identifier and
pixel dimensions (`u16` in the protocol, embedded as `Nat`). -/
structure Screen where
  root : Nat
  widthInPixels : Nat
  heightInPixels : Nat
  deriving DecidableEq, Repr

/-- Requests issued and log records written by the compositor, in program
order.  One constructor per externally visible step of the source. -/
inductive Action where
  | extQuery (e : Ext) (major minor : Nat)
  | extReply (e : Ext)
  | logInfo
  | logWarn
  | redirectSubwindows (root : Nat) (automatic : Bool)
  | getOverlayWindow (root : Nat)
  | generateId
  | createRegion (region : Nat)
  | setInputShapeRegion (win region : Nat)
  | destroyRegion (region : Nat)
  | createSurfaceUnsafe (screenNum win : Nat)
  | requestAdapter
  | requestDevice
  | getCapabilities
  | configureSurface (cfg : SurfaceConfiguration)
  | getCurrentTexture
  | createView
  | createCommandEncoder
  | beginRenderPass (clear : Color)
  | submit
  | present
  | pollForEvent
  | unredirectSubwindows (root : Nat) (automatic : Bool)
  | releaseOverlayWindow (win : Nat)
  deriving DecidableEq, Repr

/-- The trace monad: a computation appends the actions it performs to the
trace and either returns a value or short-circuits with the first error,
exactly like a chain of Rust `?` operators. -/
def Comp (α : Type) : Type := List Action → Except XError α × List Action

/-- Return a value without touching the trace. -/
def Comp.pure (a : α) : Comp α := fun t => (Except.ok a, t)

/-- Sequencing: run `m`; on success feed the value to `f`, on error stop
with the trace as it stands (Rust `?`). -/
def Comp.bind (m : Comp α) (f : α → Comp β) : Comp β := fun t =>
  match m t with
  | (Except.ok a, t') => f a t'
  | (Except.error e, t') => (Except.error e, t')

instance : Monad Comp where
  pure := Comp.pure
  bind := Comp.bind

/-- Record one action in the trace. -/
def emit (a : Action) : Comp Unit := fun t => (Except.ok (), t ++ [a])

/-- One fallible await: the environment either injects an error or yields
the value it recorded for this request. -/
def attempt (err : Option XError) (v : α) : Comp α := fun t =>
  match err with
  | some e => (Except.error e, t)
  | none => (Except.ok v, t)

/-- Fail with an error the program itself constructs. -/
def throwC (e : XError) : Comp α := fun t => (Except.error e, t)

/-- The outcomes the strict revision's `Compositor::new` consumes from the
display server and the GPU stack, one field per fallible await in the
source, in program order.  A `none` error field means that await succeeded;
the accompanying value fields are the payloads the source destructures from
the replies. -/
structure NewEnv where
  /-- Screen of the setup reply (`setup.roots[conn.screen()]`). -/
  screen : Screen
  /-- Value of `conn.screen()`, the screen number chosen at connect time (usize). -/
  screenNum : Nat
  /-- Failure of `XCBConnection::connect` / `CString::new`. -/
  connectErr : Option XError
  /-- Send or reply failure of `composite_query_version(999, 0)`. -/
  compositeVerErr : Option XError
  /-- Send or reply failure of `xfixes_query_version(999, 0)`. -/
  xfixesVerErr : Option XError
  /-- Send or reply failure of `damage_query_version(999, 0)`. -/
  damageVerErr : Option XError
  /-- Check failure of `composite_redirect_subwindows(root, AUTOMATIC)`. -/
  redirectErr : Option XError
  /-- Field `overlay_win` of the `composite_get_overlay_window` reply. -/
  overlayWin : Nat
  /-- Send or reply failure of `composite_get_overlay_window(root)`. -/
  overlayErr : Option XError
  /-- Identifier produced by `conn.generate_id()`. -/
  regionId : Nat
  /-- Failure of `conn.generate_id()`. -/
  generateIdErr : Option XError
  /-- Check failure of `xfixes_create_region(region, [])`. -/
  createRegionErr : Option XError
  /-- Check failure of `xfixes_set_window_shape_region(win, SK::INPUT, 0, 0, region)`. -/
  setShapeErr : Option XError
  /-- Check failure of `xfixes_destroy_region(region)`. -/
  destroyRegionErr : Option XError
  /-- Failure of `create_surface_unsafe`. -/
  createSurfaceErr : Option XError
  /-- Handle identity of the created surface (for object-identity claims). -/
  surfaceId : Nat
  /-- Whether `request_adapter` returns `Some`. -/
  adapterFound : Bool
  /-- Failure of `request_device`. -/
  deviceErr : Option XError
  /-- Handle identity of the created device. -/
  deviceId : Nat
  /-- Reply of `surface.get_capabilities(&adapter)`. -/
  capabilities : SurfaceCapabilities
  deriving DecidableEq, Repr

/-- The compositor state of the strict revision (`struct Compositor` in
`compositor.rs`): connection omitted (it carries no data the claims
consult), window identifiers, root size, surface/device/queue handle
identities and the surface configuration. -/
structure Compositor where
  rootWin : Nat
  overlayWin : Nat
  rootSize : Nat × Nat
  surfaceId : Nat
  deviceId : Nat
  queueId : Nat
  config : SurfaceConfiguration
  deriving DecidableEq, Repr

instance : Inhabited Compositor := ⟨⟨0, 0, (0, 0), 0, 0, 0, default⟩⟩

/-- Format selection of `Compositor::new`:
`capabilities.formats.iter().filter(|f| f.is_srgb()).next()
   .or_else(|| capabilities.formats.get(0)).cloned()` —
the first sRGB format, falling back to the first format. -/
def selectFormat (formats : List TextureFormat) : Option TextureFormat :=
  match formats.find? (fun f => f.isSrgb) with
  | some f => some f
  | none => formats.head?

/-- Modelled on the spec's words, for comparison with `selectFormat`
(which is translated from the source): "select a color format, preferring
one in the sRGB color space and falling back to the first reported format
if none is sRGB". -/
def specSelectFormat (formats : List TextureFormat) : Option TextureFormat :=
  if formats.any (fun f => f.isSrgb) then
    (formats.filter (fun f => f.isSrgb)).head?
  else formats.head?

/-- Embedding of the strict revision's `Compositor::new`
(`src/compositor.rs`, lines 44-222).  Each `emit` is a request issued (or a
`tracing` log record), each `attempt` the await of its outcome; the order
of the statements is the order of the source. -/
def Compositor.new (env : NewEnv) : Comp Compositor := do
  -- let conn = XCBConnection::connect(display)? ...
  _ ← attempt env.connectErr ()
  let root := env.screen.root
  let rootSize := (env.screen.widthInPixels, env.screen.heightInPixels)
  -- composite_query_version(999, 0).await?.reply().await?
  emit (Action.extQuery Ext.composite 999 0)
  _ ← attempt env.compositeVerErr ()
  emit (Action.extReply Ext.composite)
  emit Action.logInfo
  -- xfixes_query_version(999, 0).await?.reply().await?
  emit (Action.extQuery Ext.xfixes 999 0)
  _ ← attempt env.xfixesVerErr ()
  emit (Action.extReply Ext.xfixes)
  emit Action.logInfo
  -- damage_query_version(999, 0).await?.reply().await?
  emit (Action.extQuery Ext.damage 999 0)
  _ ← attempt env.damageVerErr ()
  emit (Action.extReply Ext.damage)
  emit Action.logInfo
  -- composite_redirect_subwindows(root, Redirect::AUTOMATIC).await?.check().await?
  emit (Action.redirectSubwindows root true)
  _ ← attempt env.redirectErr ()
  -- composite_get_overlay_window(root).await?.reply().await?.overlay_win
  emit (Action.getOverlayWindow root)
  let winId ← attempt env.overlayErr env.overlayWin
  emit Action.logInfo
  -- let region = conn.generate_id().await?
  emit Action.generateId
  let region ← attempt env.generateIdErr env.regionId
  -- xfixes_create_region(region, &[]).await?.check().await?
  emit (Action.createRegion region)
  _ ← attempt env.createRegionErr ()
  -- xfixes_set_window_shape_region(win_id, SK::INPUT, 0, 0, region).await?.check().await?
  emit (Action.setInputShapeRegion winId region)
  _ ← attempt env.setShapeErr ()
  -- xfixes_destroy_region(region).await?.check().await?
  emit (Action.destroyRegion region)
  _ ← attempt env.destroyRegionErr ()
  -- wgpu::Instance::new (infallible); then
  -- conn.screen().try_into()? : usize -> c_int
  let screenNum ←
    if env.screenNum < 2 ^ 31 then Comp.pure env.screenNum
    else throwC XError.intConversion
  -- win_id.try_into()? : u32 -> NonZeroU32
  let winNz ←
    if winId ≠ 0 then Comp.pure winId
    else throwC XError.intConversion
  -- instance.create_surface_unsafe(RawHandle { .. })?
  emit (Action.createSurfaceUnsafe screenNum winNz)
  _ ← attempt env.createSurfaceErr ()
  -- instance.request_adapter(..).await.ok_or_else(|| "No adapter found")?
  emit Action.requestAdapter
  _ ←
    if env.adapterFound then Comp.pure ()
    else throwC XError.noAdapter
  -- adapter.request_device(..).await?
  emit Action.requestDevice
  _ ← attempt env.deviceErr ()
  -- surface.get_capabilities(&adapter) (infallible)
  emit Action.getCapabilities
  -- format selection, "No sRGB surface format found" if none
  let format ←
    match selectFormat env.capabilities.formats with
    | some f => Comp.pure f
    | none => throwC XError.noFormat
  -- alpha_modes.get(0), "No supported usage found" if none
  let alphaMode ←
    match env.capabilities.alphaModes.head? with
    | some a => Comp.pure a
    | none => throwC XError.noAlphaMode
  let config : SurfaceConfiguration :=
    { usage := RENDER_ATTACHMENT
      format := format
      width := rootSize.1
      height := rootSize.2
      presentMode := PresentMode.fifo
      alphaMode := alphaMode
      viewFormats := []
      desiredMaximumFrameLatency := 2 }
  -- surface.configure(&device, &config)
  emit (Action.configureSurface config)
  Comp.pure
    { rootWin := root
      overlayWin := winId
      rootSize := rootSize
      surfaceId := env.surfaceId
      deviceId := env.deviceId
      queueId := env.deviceId
      config := config }

/-- Environment for one `render()` call: the only fallible await is
`surface.get_current_texture()?`; everything after it is infallible in the
source. -/
structure RenderEnv where
  textureErr : Option XError
  deriving DecidableEq, Repr

/-- Embedding of the strict revision's `Compositor::render`
(`src/compositor.rs`, lines 232-271).  The receiver is `&self`: the source
cannot modify the compositor, and accordingly the embedding returns no new
state. -/
def Compositor.render (_c : Compositor) (env : RenderEnv) : Comp Unit := do
  -- let output = self.surface.get_current_texture()?
  emit Action.getCurrentTexture
  _ ← attempt env.textureErr ()
  -- output.texture.create_view(&default)
  emit Action.createView
  -- device.create_command_encoder(..)
  emit Action.createCommandEncoder
  -- encoder.begin_render_pass(.. clear {0.1, 0.2, 0.5, 1.0} ..)
  emit (Action.beginRenderPass strictClearColor)
  -- queue.submit(once(encoder.finish()))
  emit Action.submit
  -- output.present()
  emit Action.present

/-- Embedding of the loose revision's `Compositor::render`
(`src/main.rs`, lines 170-211); identical save for the clear color
(0.1, 0.2, 0.3, 1.0). -/
def Compositor.renderLoose (_c : Compositor) (env : RenderEnv) : Comp Unit := do
  emit Action.getCurrentTexture
  _ ← attempt env.textureErr ()
  emit Action.createView
  emit Action.createCommandEncoder
  emit (Action.beginRenderPass looseClearColor)
  emit Action.submit
  emit Action.present

/-- Trace segment a successful strict `render()` appends. -/
def strictRenderTrace : List Action :=
  [Action.getCurrentTexture, Action.createView, Action.createCommandEncoder,
   Action.beginRenderPass strictClearColor, Action.submit, Action.present]

/-- Trace segment a successful loose `render()` appends. -/
def looseRenderTrace : List Action :=
  [Action.getCurrentTexture, Action.createView, Action.createCommandEncoder,
   Action.beginRenderPass looseClearColor, Action.submit, Action.present]

/-- The closed set of X11 event kinds the strict run loop's `match`
distinguishes (`src/compositor.rs`, lines 279-334); `otherEvent` is the
final catch-all arm. -/
inductive XEvent where
  | unknown
  | xerror
  | buttonPress
  | createNotify
  | destroyNotify
  | enterNotify
  | focusIn
  | focusOut
  | keyPress
  | keyRelease
  | leaveNotify
  | mapNotify
  | mapRequest
  | mappingNotify
  | propertyNotify
  | reparentNotify
  | unmapNotify
  | visibilityNotify
  | damageNotify
  | otherEvent
  deriving DecidableEq, Repr

/-- The logging handler of the strict run loop: `Unknown` and the named
lifecycle/input/damage events are logged at info level, `Error` and the
catch-all arm at warning level. -/
def dispatchLog : XEvent → Action
  | XEvent.xerror => Action.logWarn
  | XEvent.otherEvent => Action.logWarn
  | _ => Action.logInfo

/-- Environment for one iteration of the strict run loop: the render
environment plus the outcome of `poll_for_event()?` (an error, or
optionally one event). -/
structure IterEnv where
  renderEnv : RenderEnv
  pollErr : Option XError
  pollEvent : Option XEvent
  deriving DecidableEq, Repr

/-- Outcome of a run loop in the embedding: `stopped` is the loop
returning `Ok(())`, `failed e` is `?` propagating `e`, and `pending` marks
exhaustion of the environment list while the source loop would still be
running (the source loop has no such case; it is an artifact of embedding
a potentially unbounded loop on a finite environment). -/
inductive RunResult where
  | stopped
  | failed (e : XError)
  | pending
  deriving DecidableEq, Repr

/-- Embedding of the strict revision's `Compositor::run`
(`src/compositor.rs`, lines 273-347): each iteration calls `render()?`,
then `poll_for_event()?`; a polled event is dispatched to the logging
handler and the loop breaks (returning `Ok(())`); with no event the loop
repeats. -/
def Compositor.runStrict (c : Compositor) :
    List IterEnv → List Action → RunResult × List Action
  | [], t => (RunResult.pending, t)
  | i :: rest, t =>
    match c.render i.renderEnv t with
    | (Except.error e, t') => (RunResult.failed e, t')
    | (Except.ok _, t') =>
      let t'' := t' ++ [Action.pollForEvent]
      match i.pollErr with
      | some e => (RunResult.failed e, t'')
      | none =>
        match i.pollEvent with
        | some ev => (RunResult.stopped, t'' ++ [dispatchLog ev])
        | none => c.runStrict rest t''

/-- Embedding of the loose revision's `Compositor::run`
(`src/main.rs`, lines 213-227): each iteration calls `render().ok()`
(errors discarded), then increments the global atomic counter `I` with
`fetch_add`, breaking once the previous value exceeds 200.  `counter` is
the counter's current value; the result carries the final counter value.
No event poll exists in this revision (it is commented out). -/
def Compositor.runLoose (c : Compositor) (renvs : Nat → RenderEnv)
    (counter : Nat) (t : List Action) : RunResult × Nat × List Action :=
  let t' := (c.renderLoose (renvs counter) t).2
  if counter > 200 then (RunResult.stopped, counter + 1, t')
  else c.runLoose renvs (counter + 1) t'
termination_by 201 - counter
decreasing_by omega

/-- Embedding of the strict revision's `Compositor::resize`
(`src/compositor.rs`, lines 224-230): mutate the configuration's width and
height (`u16` arguments, cast `as u32`), then re-apply it to the existing
surface.  Returns the new state and the actions performed. -/
def Compositor.resize (c : Compositor) (width height : Nat) :
    Compositor × List Action :=
  let config :=
    { c.config with width := width, height := height }
  ({ c with config := config }, [Action.configureSurface config])

/-- Environment for the teardown task: outcomes of the two best-effort
requests. -/
structure DropEnv where
  unredirectErr : Option XError
  releaseErr : Option XError
  deriving DecidableEq, Repr

/-- Embedding of `impl Drop for Compositor` (`src/compositor.rs`, lines
350-364): the spawned task issues `composite_unredirect_subwindows(root,
AUTOMATIC)` and `composite_release_overlay_window(overlay)`; each outcome
is discarded with `.ok()` (the first after a `map_err` that only rewraps
the error), so the task returns `()` whatever the environment answers and
writes nothing to the log. -/
def Compositor.dropTeardown (c : Compositor) (env : DropEnv) :
    Unit × List Action :=
  let t1 := [Action.unredirectSubwindows c.rootWin true]
  -- .map_err(|e| anyhow!("{e}")).ok() : discarded
  let _ : Option Unit :=
    match env.unredirectErr with
    | some _ => none
    | none => some ()
  let t2 := t1 ++ [Action.releaseOverlayWindow c.overlayWin]
  -- .ok() : discarded
  let _ : Option Unit :=
    match env.releaseErr with
    | some _ => none
    | none => some ()
  ((), t2)

/-- The surface configuration a successful `Compositor::new` builds from an
environment: render-attachment usage, the selected format and first alpha
mode, the screen dimensions, Fifo presentation, no view formats, latency 2. -/
def NewEnv.expectedConfig (env : NewEnv) : SurfaceConfiguration :=
  { usage := RENDER_ATTACHMENT
    format := (selectFormat env.capabilities.formats).getD default
    width := env.screen.widthInPixels
    height := env.screen.heightInPixels
    presentMode := PresentMode.fifo
    alphaMode := (env.capabilities.alphaModes.head?).getD 0
    viewFormats := []
    desiredMaximumFrameLatency := 2 }

/-- The compositor state a successful `Compositor::new` returns. -/
def NewEnv.expectedCompositor (env : NewEnv) : Compositor :=
  { rootWin := env.screen.root
    overlayWin := env.overlayWin
    rootSize := (env.screen.widthInPixels, env.screen.heightInPixels)
    surfaceId := env.surfaceId
    deviceId := env.deviceId
    queueId := env.deviceId
    config := env.expectedConfig }

/-- The full action trace of a successful `Compositor::new`. -/
def NewEnv.successTrace (env : NewEnv) : List Action :=
  [Action.extQuery Ext.composite 999 0, Action.extReply Ext.composite, Action.logInfo,
   Action.extQuery Ext.xfixes 999 0, Action.extReply Ext.xfixes, Action.logInfo,
   Action.extQuery Ext.damage 999 0, Action.extReply Ext.damage, Action.logInfo,
   Action.redirectSubwindows env.screen.root true,
   Action.getOverlayWindow env.screen.root,
   Action.logInfo,
   Action.generateId,
   Action.createRegion env.regionId,
   Action.setInputShapeRegion env.overlayWin env.regionId,
   Action.destroyRegion env.regionId,
   Action.createSurfaceUnsafe env.screenNum env.overlayWin,
   Action.requestAdapter,
   Action.requestDevice,
   Action.getCapabilities,
   Action.configureSurface env.expectedConfig]

/-- Holds exactly for the negotiation and setup requests claim C1 orders:
version queries, their replies, the redirect-subwindows request and the
overlay-window request. -/
def isNegotiationAction : Action → Bool
  | Action.extQuery _ _ _ => true
  | Action.extReply _ => true
  | Action.redirectSubwindows _ _ => true
  | Action.getOverlayWindow _ => true
  | _ => false

/-- Holds exactly for trace entries that are log records. -/
def isLogAction : Action → Bool
  | Action.logInfo => true
  | Action.logWarn => true
  | _ => false

/-- A concrete environment on which every request succeeds (screen 800x600,
root window 1, overlay window 7, two sRGB formats after a non-sRGB one). -/
def env0 : NewEnv :=
  { screen := { root := 1, widthInPixels := 800, heightInPixels := 600 }
    screenNum := 0
    connectErr := none
    compositeVerErr := none
    xfixesVerErr := none
    damageVerErr := none
    redirectErr := none
    overlayWin := 7
    overlayErr := none
    regionId := 3
    generateIdErr := none
    createRegionErr := none
    setShapeErr := none
    destroyRegionErr := none
    createSurfaceErr := none
    surfaceId := 21
    adapterFound := true
    deviceErr := none
    deviceId := 22
    capabilities :=
      { formats := [⟨5, false⟩, ⟨6, true⟩, ⟨7, true⟩], alphaModes := [4, 9] } }

/-- The compositor produced by `Compositor.new` on `env0`. -/
def comp0 : Compositor :=
  match (Compositor.new env0 []).1 with
  | Except.ok c => c
  | Except.error _ => default

/-- The trace produced by `Compositor.new` on `env0`. -/
def trace0 : List Action := (Compositor.new env0 []).2

/-- Environment `env0` with a failing `xfixes_create_region` request. -/
def env5a : NewEnv := { env0 with createRegionErr := some (XError.protocol 11) }

/-- Environment `env0` with a failing `xfixes_set_window_shape_region` request. -/
def env5c : NewEnv := { env0 with setShapeErr := some (XError.protocol 9) }

/-- Environment `env0` with the server answering the overlay-window request with the
root window's own (nonzero) identifier. -/
def env6 : NewEnv := { env0 with overlayWin := env0.screen.root }

/-- The compositor produced by `Compositor.new` on `env6`. -/
def comp6 : Compositor :=
  match (Compositor.new env6 []).1 with
  | Except.ok c => c
  | Except.error _ => default

/-- A run-loop iteration whose `get_current_texture` fails. -/
def iterFail : IterEnv := ⟨⟨some (XError.protocol 2)⟩, none, none⟩

/-- A run-loop iteration that renders fine and polls one key-press event. -/
def iterKey : IterEnv := ⟨⟨none⟩, none, some XEvent.keyPress⟩

/-- A teardown environment in which both requests fail. -/
def dropEnvFail : DropEnv := ⟨some (XError.protocol 3), some (XError.protocol 4)⟩

/-! ## Theorems -/

@[simp] theorem Comp.pure_apply (a : α) (t : List Action) :
    (Pure.pure a : Comp α) t = (Except.ok a, t) := rfl

@[simp] theorem Comp.bind_apply (m : Comp α) (f : α → Comp β) (t : List Action) :
    (m >>= f) t =
      (match m t with
        | (Except.ok a, t') => f a t'
        | (Except.error e, t') => (Except.error e, t')) := rfl

@[simp] theorem emit_apply (a : Action) (t : List Action) :
    emit a t = (Except.ok (), t ++ [a]) := rfl

@[simp] theorem attempt_apply (err : Option XError) (v : α) (t : List Action) :
    attempt err v t =
      ((match err with
        | some e => Except.error e
        | none => Except.ok v), t) := by
  unfold attempt; cases err <;> rfl

@[simp] theorem throwC_apply (e : XError) (t : List Action) :
    (throwC e : Comp α) t = (Except.error e, t) := rfl

theorem render_apply (c : Compositor) (env : RenderEnv) (t : List Action) :
    c.render env t =
      (match env.textureErr with
        | some e => (Except.error e, t ++ [Action.getCurrentTexture])
        | none => (Except.ok (), t ++ strictRenderTrace)) := by
  cases env with
  | mk err => cases err <;> simp [Compositor.render, strictRenderTrace]

theorem renderLoose_apply (c : Compositor) (env : RenderEnv) (t : List Action) :
    c.renderLoose env t =
      (match env.textureErr with
        | some e => (Except.error e, t ++ [Action.getCurrentTexture])
        | none => (Except.ok (), t ++ looseRenderTrace)) := by
  cases env with
  | mk err => cases err <;> simp [Compositor.renderLoose, looseRenderTrace]

set_option maxHeartbeats 2000000 in
/-- A successful `Compositor::new` run fully characterized: every fallible
await succeeded (in particular the overlay identifier passed the
`NonZeroU32` conversion), the format and alpha mode came out of the
reported capabilities, the returned state is `expectedCompositor` and the
trace is `successTrace`. -/
theorem new_ok_spec (env : NewEnv) (c : Compositor) (t : List Action)
    (h : Compositor.new env [] = (Except.ok c, t)) :
    env.connectErr = none ∧ env.compositeVerErr = none ∧ env.xfixesVerErr = none ∧
    env.damageVerErr = none ∧ env.redirectErr = none ∧ env.overlayErr = none ∧
    env.generateIdErr = none ∧ env.createRegionErr = none ∧ env.setShapeErr = none ∧
    env.destroyRegionErr = none ∧ env.screenNum < 2 ^ 31 ∧ env.overlayWin ≠ 0 ∧
    env.createSurfaceErr = none ∧ env.adapterFound = true ∧ env.deviceErr = none ∧
    selectFormat env.capabilities.formats = some c.config.format ∧
    env.capabilities.alphaModes.head? = some c.config.alphaMode ∧
    c = env.expectedCompositor ∧
    t = env.successTrace := by
  unfold Compositor.new at h
  cases hce : env.connectErr with
  | some e => simp [hce, Comp.pure] at h
  | none =>
  cases hcv : env.compositeVerErr with
  | some e => simp [hce, hcv, Comp.pure] at h
  | none =>
  cases hxv : env.xfixesVerErr with
  | some e => simp [hce, hcv, hxv, Comp.pure] at h
  | none =>
  cases hdv : env.damageVerErr with
  | some e => simp [hce, hcv, hxv, hdv, Comp.pure] at h
  | none =>
  cases hre : env.redirectErr with
  | some e => simp [hce, hcv, hxv, hdv, hre, Comp.pure] at h
  | none =>
  cases hoe : env.overlayErr with
  | some e => simp [hce, hcv, hxv, hdv, hre, hoe, Comp.pure] at h
  | none =>
  cases hge : env.generateIdErr with
  | some e => simp [hce, hcv, hxv, hdv, hre, hoe, hge, Comp.pure] at h
  | none =>
  cases hcr : env.createRegionErr with
  | some e => simp [hce, hcv, hxv, hdv, hre, hoe, hge, hcr, Comp.pure] at h
  | none =>
  cases hss : env.setShapeErr with
  | some e => simp [hce, hcv, hxv, hdv, hre, hoe, hge, hcr, hss, Comp.pure] at h
  | none =>
  cases hdr : env.destroyRegionErr with
  | some e => simp [hce, hcv, hxv, hdv, hre, hoe, hge, hcr, hss, hdr, Comp.pure] at h
  | none =>
  by_cases hsn : env.screenNum < 2147483648
  case neg => simp [hce, hcv, hxv, hdv, hre, hoe, hge, hcr, hss, hdr, hsn, Comp.pure] at h
  case pos =>
  by_cases how : env.overlayWin = 0
  case pos => simp [hce, hcv, hxv, hdv, hre, hoe, hge, hcr, hss, hdr, hsn, how, Comp.pure] at h
  case neg =>
  cases hcs : env.createSurfaceErr with
  | some e =>
    simp [hce, hcv, hxv, hdv, hre, hoe, hge, hcr, hss, hdr, hsn, how, hcs, Comp.pure] at h
  | none =>
  cases haf : env.adapterFound with
  | false =>
    simp [hce, hcv, hxv, hdv, hre, hoe, hge, hcr, hss, hdr, hsn, how, hcs, haf, Comp.pure] at h
  | true =>
  cases hde : env.deviceErr with
  | some e =>
    simp [hce, hcv, hxv, hdv, hre, hoe, hge, hcr, hss, hdr, hsn, how, hcs, haf, hde,
      Comp.pure] at h
  | none =>
  cases hfm : selectFormat env.capabilities.formats with
  | none =>
    simp [hce, hcv, hxv, hdv, hre, hoe, hge, hcr, hss, hdr, hsn, how, hcs, haf, hde, hfm,
      Comp.pure] at h
  | some f =>
  cases hal : env.capabilities.alphaModes.head? with
  | none =>
    simp [hce, hcv, hxv, hdv, hre, hoe, hge, hcr, hss, hdr, hsn, how, hcs, haf, hde, hfm, hal,
      Comp.pure] at h
  | some a =>
  simp [hce, hcv, hxv, hdv, hre, hoe, hge, hcr, hss, hdr, hsn, how, hcs, haf, hde, hfm, hal,
    Comp.pure, Prod.mk.injEq] at h
  obtain ⟨hc, ht⟩ := h
  subst hc
  subst ht
  refine ⟨rfl, rfl, rfl, rfl, rfl, rfl, rfl, rfl, rfl, rfl, by simpa using hsn, how,
    rfl, rfl, rfl, ?_, ?_, ?_, ?_⟩
  · rfl
  · rfl
  · simp [NewEnv.expectedCompositor, NewEnv.expectedConfig, hfm, hal]
  · simp [NewEnv.successTrace, NewEnv.expectedConfig, hfm, hal]

theorem find?_eq_head_filter (p : TextureFormat → Bool) (l : List TextureFormat) :
    l.find? p = (l.filter p).head? := by
  induction l with
  | nil => rfl
  | cons a l ih =>
    cases h : p a with
    | true =>
      rw [List.find?_cons_of_pos _ h, List.filter_cons_of_pos h, List.head?_cons]
    | false =>
      rw [List.find?_cons_of_neg _ (by simp [h]),
        List.filter_cons_of_neg (by simp [h]), ih]

theorem selectFormat_eq_specSelectFormat (fs : List TextureFormat) :
    selectFormat fs = specSelectFormat fs := by
  unfold selectFormat specSelectFormat
  rw [find?_eq_head_filter]
  by_cases h : fs.any (fun f => f.isSrgb)
  · have hne : fs.filter (fun f => f.isSrgb) ≠ [] := by
      simp only [List.any_eq_true] at h
      obtain ⟨x, hx, hpx⟩ := h
      intro hnil
      have hm : x ∈ fs.filter (fun f => f.isSrgb) := List.mem_filter.mpr ⟨hx, hpx⟩
      simp [hnil] at hm
    obtain ⟨g, hg⟩ : ∃ g, (fs.filter (fun f => f.isSrgb)).head? = some g := by
      cases hq : (fs.filter (fun f => f.isSrgb)).head? with
      | some g => exact ⟨g, rfl⟩
      | none => exact absurd (List.head?_eq_none_iff.mp hq) hne
    simp [h, hg]
  · have hnil : fs.filter (fun f => f.isSrgb) = [] := by
      simp only [List.any_eq_true, not_exists, not_and] at h
      exact List.filter_eq_nil_iff.mpr fun a ha => by simpa using h a ha
    simp [h, hnil]

theorem selectFormat_eq_none_iff (fs : List TextureFormat) :
    selectFormat fs = none ↔ fs = [] := by
  cases fs with
  | nil => simp [selectFormat]
  | cons f rest =>
    cases h : List.find? (fun f => f.isSrgb) (f :: rest) <;>
      simp [selectFormat, h]

theorem renderLoose_count_poll (c : Compositor) (env : RenderEnv) (t : List Action) :
    ((c.renderLoose env t).2).count Action.pollForEvent =
      t.count Action.pollForEvent := by
  rw [renderLoose_apply]
  cases env.textureErr <;> simp [looseRenderTrace, List.count_append]

theorem runLoose_stop (c : Compositor) (renvs : Nat → RenderEnv)
    (counter : Nat) (t : List Action) (hgt : counter > 200) :
    c.runLoose renvs counter t =
      (RunResult.stopped, counter + 1, (c.renderLoose (renvs counter) t).2) := by
  conv_lhs => unfold Compositor.runLoose
  simp [hgt]

theorem runLoose_step (c : Compositor) (renvs : Nat → RenderEnv)
    (counter : Nat) (t : List Action) (hle : ¬counter > 200) :
    c.runLoose renvs counter t =
      c.runLoose renvs (counter + 1) ((c.renderLoose (renvs counter) t).2) := by
  conv_lhs => unfold Compositor.runLoose
  simp [hle]

theorem runLoose_spec_aux (c : Compositor) (renvs : Nat → RenderEnv) :
    ∀ fuel counter t, 201 - counter ≤ fuel →
      (c.runLoose renvs counter t).1 = RunResult.stopped ∧
      (c.runLoose renvs counter t).2.1 = Nat.max (counter + 1) 202 ∧
      (c.runLoose renvs counter t).2.2.count Action.pollForEvent =
        t.count Action.pollForEvent := by
  intro fuel
  induction fuel with
  | zero =>
    intro counter t hle
    have hgt : counter > 200 := by omega
    rw [runLoose_stop c renvs counter t hgt]
    refine ⟨rfl, ?_, renderLoose_count_poll c (renvs counter) t⟩
    show counter + 1 = Nat.max (counter + 1) 202
    exact (Nat.max_eq_left (by omega)).symm
  | succ n ih =>
    intro counter t hle
    by_cases hgt : counter > 200
    · rw [runLoose_stop c renvs counter t hgt]
      refine ⟨rfl, ?_, renderLoose_count_poll c (renvs counter) t⟩
      show counter + 1 = Nat.max (counter + 1) 202
      exact (Nat.max_eq_left (by omega)).symm
    · have step := ih (counter + 1) ((c.renderLoose (renvs counter) t).2) (by omega)
      rw [runLoose_step c renvs counter t hgt]
      refine ⟨step.1, ?_, ?_⟩
      · rw [step.2.1]
        exact (Nat.max_eq_right (by omega)).trans (Nat.max_eq_right (by omega)).symm
      · rw [step.2.2, renderLoose_count_poll]

/-! ## Claim theorems -/

/-- C1: in the strict revision's `Compositor::new`, every successful run
issues the extension version queries in the fixed order composite, xfixes,
damage, receives each reply before issuing the next query, and issues the
redirect-subwindows request and the overlay-window request only after all
three replies: the subsequence of negotiation/setup actions in the trace is
exactly this list (filtering preserves order). -/
theorem negotiation_order (env : NewEnv) (c : Compositor) (t : List Action)
    (h : Compositor.new env [] = (Except.ok c, t)) :
    t.filter isNegotiationAction =
      [Action.extQuery Ext.composite 999 0, Action.extReply Ext.composite,
       Action.extQuery Ext.xfixes 999 0, Action.extReply Ext.xfixes,
       Action.extQuery Ext.damage 999 0, Action.extReply Ext.damage,
       Action.redirectSubwindows env.screen.root true,
       Action.getOverlayWindow env.screen.root] := by
  obtain ⟨-, -, -, -, -, -, -, -, -, -, -, -, -, -, -, -, -, -, ht⟩ :=
    new_ok_spec env c t h
  subst ht
  simp [NewEnv.successTrace, isNegotiationAction]

/-- Witness for C1 at the concrete environment `env0`. -/
theorem negotiation_order_witness :
    trace0.filter isNegotiationAction =
      [Action.extQuery Ext.composite 999 0, Action.extReply Ext.composite,
       Action.extQuery Ext.xfixes 999 0, Action.extReply Ext.xfixes,
       Action.extQuery Ext.damage 999 0, Action.extReply Ext.damage,
       Action.redirectSubwindows 1 true, Action.getOverlayWindow 1] :=
  negotiation_order env0 comp0 trace0 rfl

/-- C2: after a successful `Compositor::new` on screen size (w, h), the
configuration has width w and height h exactly, Fifo presentation,
render-attachment usage, the first capability-reported alpha mode, an
empty view-formats list and a desired maximum frame latency of 2. -/
theorem config_after_new (env : NewEnv) (c : Compositor) (t : List Action)
    (h : Compositor.new env [] = (Except.ok c, t)) :
    c.config.width = env.screen.widthInPixels ∧
    c.config.height = env.screen.heightInPixels ∧
    c.config.presentMode = PresentMode.fifo ∧
    c.config.usage = RENDER_ATTACHMENT ∧
    env.capabilities.alphaModes.head? = some c.config.alphaMode ∧
    c.config.viewFormats = [] ∧
    c.config.desiredMaximumFrameLatency = 2 := by
  obtain ⟨-, -, -, -, -, -, -, -, -, -, -, -, -, -, -, -, hal, hc, -⟩ :=
    new_ok_spec env c t h
  subst hc
  exact ⟨rfl, rfl, rfl, rfl, hal, rfl, rfl⟩

/-- Witness for C2 at the concrete environment `env0`. -/
theorem config_after_new_witness :
    comp0.config.width = env0.screen.widthInPixels ∧
    comp0.config.height = env0.screen.heightInPixels ∧
    comp0.config.presentMode = PresentMode.fifo ∧
    comp0.config.usage = RENDER_ATTACHMENT ∧
    env0.capabilities.alphaModes.head? = some comp0.config.alphaMode ∧
    comp0.config.viewFormats = [] ∧
    comp0.config.desiredMaximumFrameLatency = 2 :=
  config_after_new env0 comp0 trace0 rfl

/-- C3: the format selected by `Compositor::new` is the first sRGB format
if any sRGB format is reported, otherwise the first reported format
(`specSelectFormat` transcribes the spec's words); selection fails exactly
when the reported format list is empty; on every successful run the
configured format is the one `selectFormat` picks from the reported
capabilities; and with an empty format list `Compositor::new` cannot
succeed (the failure is fatal to startup). -/
theorem format_selection (fs : List TextureFormat) (env : NewEnv)
    (c : Compositor) (t : List Action) :
    (selectFormat fs = specSelectFormat fs) ∧
    (selectFormat fs = none ↔ fs = []) ∧
    (Compositor.new env [] = (Except.ok c, t) →
      selectFormat env.capabilities.formats = some c.config.format) ∧
    (env.capabilities.formats = [] →
      Compositor.new env [] ≠ (Except.ok c, t)) := by
  refine ⟨selectFormat_eq_specSelectFormat fs, selectFormat_eq_none_iff fs,
    fun h => ?_, fun hnil h => ?_⟩
  · exact (new_ok_spec env c t h).2.2.2.2.2.2.2.2.2.2.2.2.2.2.2.1
  · have hfm := (new_ok_spec env c t h).2.2.2.2.2.2.2.2.2.2.2.2.2.2.2.1
    rw [(selectFormat_eq_none_iff env.capabilities.formats).mpr hnil] at hfm
    exact Option.noConfusion hfm

/-- Witness for C3: the success-link conjunct discharged at `env0`. -/
theorem format_selection_witness :
    selectFormat env0.capabilities.formats = some comp0.config.format :=
  (format_selection [] env0 comp0 trace0).2.2.1 rfl

/-- C4: in the strict revision's run loop, each iteration invokes
`render()` first: if `render()` fails, `run` stops immediately with that
error (the iteration's trace contains only the failed texture acquisition
and no poll); if `render()` succeeds and the poll yields an event, the
event is dispatched to the logging handler and the loop stops with
`Ok(())`, with result and trace independent of the remaining iterations
(`rest` is arbitrary and unused). -/
theorem run_strict_spec (c : Compositor) (i : IterEnv) (rest : List IterEnv)
    (t : List Action) :
    (∀ e, i.renderEnv.textureErr = some e →
      c.runStrict (i :: rest) t =
        (RunResult.failed e, t ++ [Action.getCurrentTexture])) ∧
    (∀ ev, i.renderEnv.textureErr = none → i.pollErr = none →
      i.pollEvent = some ev →
      c.runStrict (i :: rest) t =
        (RunResult.stopped,
         t ++ strictRenderTrace ++ [Action.pollForEvent, dispatchLog ev])) := by
  constructor
  · intro e he
    simp [Compositor.runStrict, render_apply, he]
  · intro ev h1 h2 h3
    simp [Compositor.runStrict, render_apply, h1, h2, h3]

/-- Witness for C4: a failing render stops the loop with that error, and a
polled key-press event is logged and stops the loop with `Ok(())`. -/
theorem run_strict_spec_witness :
    comp0.runStrict [iterFail] [] =
      (RunResult.failed (XError.protocol 2), [Action.getCurrentTexture]) ∧
    comp0.runStrict [iterKey] [] =
      (RunResult.stopped,
       strictRenderTrace ++ [Action.pollForEvent, Action.logInfo]) :=
  ⟨(run_strict_spec comp0 iterFail [] []).1 (XError.protocol 2) rfl,
   (run_strict_spec comp0 iterKey [] []).2 XEvent.keyPress rfl rfl rfl⟩

/-- C5 counterexample: on `env5c` every request up to and including the
shape step's `set_window_shape_region` behaves as on `env0`, but that
request fails; `Compositor::new` then returns the error instead of
succeeding, and the trace holds no warning record — refuting the claim
that a shape-region failure is non-fatal and surfaced as a warning. -/
theorem shape_failure_counterexample :
    env5c.setShapeErr = some (XError.protocol 9) ∧
    (Compositor.new env5c []).1 = Except.error (XError.protocol 9) ∧
    (Compositor.new env5c []).2.count Action.logWarn = 0 := by
  exact ⟨rfl, rfl, rfl⟩

/-- C5 (amended): any failure in the input-shape-region step — creating
the region, setting it as the overlay window's input shape, or destroying
it — is propagated by `?`: `Compositor::new` fails with that very error
(no warning-level containment exists in the strict revision). -/
theorem shape_failure_fatal (env : NewEnv) (e : XError)
    (h1 : env.connectErr = none) (h2 : env.compositeVerErr = none)
    (h3 : env.xfixesVerErr = none) (h4 : env.damageVerErr = none)
    (h5 : env.redirectErr = none) (h6 : env.overlayErr = none)
    (h7 : env.generateIdErr = none) :
    (env.createRegionErr = some e →
      (Compositor.new env []).1 = Except.error e) ∧
    (env.createRegionErr = none → env.setShapeErr = some e →
      (Compositor.new env []).1 = Except.error e) ∧
    (env.createRegionErr = none → env.setShapeErr = none →
      env.destroyRegionErr = some e →
      (Compositor.new env []).1 = Except.error e) := by
  refine ⟨fun hx => ?_, fun hx hy => ?_, fun hx hy hz => ?_⟩ <;>
    simp [Compositor.new, Comp.pure, h1, h2, h3, h4, h5, h6, h7, *]

/-- Witness for the amended C5 at a concrete environment. -/
theorem shape_failure_fatal_witness :
    (Compositor.new env5a []).1 = Except.error (XError.protocol 11) :=
  (shape_failure_fatal env5a (XError.protocol 11) rfl rfl rfl rfl rfl rfl rfl).1 rfl

/-- C6 counterexample: on `env6` the server answers the overlay-window
request with the root window's own identifier; `Compositor::new` contains
no check against this and succeeds with `overlayWin = rootWin`, refuting
"never equal to the root window identifier". -/
theorem overlay_equals_root_counterexample :
    (Compositor.new env6 []).1 = Except.ok comp6 ∧
    comp6.overlayWin = comp6.rootWin ∧ comp6.rootWin = 1 := by
  exact ⟨rfl, rfl, rfl⟩

/-- C6 (amended): on every successful `Compositor::new` the stored overlay
window identifier is nonzero (the `u32 → NonZeroU32` conversion for the
window handle fails otherwise); distinctness from the root window
identifier is not enforced by the code. -/
theorem overlay_nonzero (env : NewEnv) (c : Compositor) (t : List Action)
    (h : Compositor.new env [] = (Except.ok c, t)) :
    c.overlayWin ≠ 0 := by
  obtain ⟨-, -, -, -, -, -, -, -, -, -, -, how, -, -, -, -, -, hc, -⟩ :=
    new_ok_spec env c t h
  subst hc
  exact how

/-- Witness for the amended C6 at `env0`. -/
theorem overlay_nonzero_witness : comp0.overlayWin ≠ 0 :=
  overlay_nonzero env0 comp0 trace0 rfl

/-- C7: `resize(w, h)` sets the configuration's width and height to w and
h and re-applies the configuration to the existing surface (the only
action emitted is `configureSurface`); every other configuration field and
the surface/device/queue handles and window identifiers are unchanged; the
statement quantifies over all w and h, so w = 0 and h = 0 are accepted
without validation. -/
theorem resize_spec (c : Compositor) (w h : Nat) :
    (c.resize w h).1.config.width = w ∧
    (c.resize w h).1.config.height = h ∧
    (c.resize w h).1.config.format = c.config.format ∧
    (c.resize w h).1.config.usage = c.config.usage ∧
    (c.resize w h).1.config.presentMode = c.config.presentMode ∧
    (c.resize w h).1.config.alphaMode = c.config.alphaMode ∧
    (c.resize w h).1.config.viewFormats = c.config.viewFormats ∧
    (c.resize w h).1.config.desiredMaximumFrameLatency =
      c.config.desiredMaximumFrameLatency ∧
    (c.resize w h).1.surfaceId = c.surfaceId ∧
    (c.resize w h).1.deviceId = c.deviceId ∧
    (c.resize w h).1.queueId = c.queueId ∧
    (c.resize w h).1.rootWin = c.rootWin ∧
    (c.resize w h).1.overlayWin = c.overlayWin ∧
    (c.resize w h).2 = [Action.configureSurface (c.resize w h).1.config] := by
  refine ⟨rfl, rfl, rfl, rfl, rfl, rfl, rfl, rfl, rfl, rfl, rfl, rfl, rfl, rfl⟩

/-- C8 counterexample: with both teardown requests failing, the teardown
trace is exactly the two requests and holds no log record at all — the
errors are discarded, not logged, refuting the "is logged" part of the
claim. -/
theorem teardown_not_logged_counterexample :
    dropEnvFail.unredirectErr = some (XError.protocol 3) ∧
    dropEnvFail.releaseErr = some (XError.protocol 4) ∧
    (comp0.dropTeardown dropEnvFail).2 =
      [Action.unredirectSubwindows 1 true, Action.releaseOverlayWindow 7] ∧
    (comp0.dropTeardown dropEnvFail).2.filter isLogAction = [] := by
  exact ⟨rfl, rfl, rfl, rfl⟩

/-- C8 (amended): per teardown run, exactly one un-redirect-subwindows
request in automatic mode and exactly one overlay-window-release request
are issued, in this order; the task's result is `()` for every
environment, so no error is ever propagated — but the errors are silently
discarded (`.ok()`), not logged. -/
theorem teardown_spec (c : Compositor) (env : DropEnv) :
    c.dropTeardown env =
      ((), [Action.unredirectSubwindows c.rootWin true,
            Action.releaseOverlayWindow c.overlayWin]) ∧
    (c.dropTeardown env).2.count (Action.unredirectSubwindows c.rootWin true) = 1 ∧
    (c.dropTeardown env).2.count (Action.releaseOverlayWindow c.overlayWin) = 1 ∧
    (c.dropTeardown env).2.filter isLogAction = [] := by
  refine ⟨rfl, ?_, ?_, rfl⟩ <;>
    simp [Compositor.dropTeardown, List.count_cons, isLogAction]

/-- C9: the loose revision's run loop always terminates with `Ok(())`
whatever each iteration's render outcome is (errors are discarded by
`.ok()`), never polls for an event (no `pollForEvent` action is ever
added to the trace), and stops exactly when the global counter exceeds
200: the final counter value is `max (counter + 1) 202`. -/
theorem run_loose_spec (c : Compositor) (renvs : Nat → RenderEnv)
    (counter : Nat) (t : List Action) :
    (c.runLoose renvs counter t).1 = RunResult.stopped ∧
    (c.runLoose renvs counter t).2.1 = Nat.max (counter + 1) 202 ∧
    (c.runLoose renvs counter t).2.2.count Action.pollForEvent =
      t.count Action.pollForEvent :=
  runLoose_spec_aux c renvs (201 - counter) counter t le_rfl

/-- C10: when `get_current_texture` fails, `render()` (both revisions)
returns that error having performed only the texture acquisition: no
command encoder is created, nothing is submitted, no frame is presented.
The receiver is `&self`, which the embedding mirrors by returning no new
state: the compositor value is untouched. -/
theorem render_error_aborts (c : Compositor) (e : XError) (t : List Action) :
    c.render ⟨some e⟩ t = (Except.error e, t ++ [Action.getCurrentTexture]) ∧
    c.renderLoose ⟨some e⟩ t =
      (Except.error e, t ++ [Action.getCurrentTexture]) := by
  exact ⟨render_apply c ⟨some e⟩ t, renderLoose_apply c ⟨some e⟩ t⟩

end Recomp
